import Mathlib

/-!
Verification of the EasyYoutube browser video-recorder codebase.

Shallow embedding of the pure logic of the repository:
media-utils (MIME probe, time formatting), error-handler,
captureAudioForRecording, the recording state machine of
useRecording.ts and of the legacy VideoRecorder components,
view-mode handling, the teleprompter scroll animation, the
download file names, and the script-generation form submit.
-/

namespace EasyYoutube

/-! ### media-utils.ts : getSupportedMimeType -/

/-- The ordered probe list of container/codec combinations,
from media-utils.ts lines 4-11. -/
def mimeTypes : List String :=
  ["video/webm;codecs=vp9,opus",
   "video/webm;codecs=vp8,opus",
   "video/webm;codecs=h264,opus",
   "video/mp4;codecs=h264,aac",
   "video/webm",
   "video/mp4"]

/-- The for-loop of getSupportedMimeType: return the first list element
the browser predicate accepts. -/
def probeLoop (supported : String → Bool) : List String → Option String
  | [] => none
  | t :: rest => if supported t then some t else probeLoop supported rest

/-- getSupportedMimeType from media-utils.ts, with the browser's
MediaRecorder.isTypeSupported supplied as a predicate. -/
def getSupportedMimeType (supported : String → Bool) : String :=
  match probeLoop supported mimeTypes with
  | some t => t
  | none => "video/webm"

/-! ### media-utils.ts : formatTime -/

/-- JavaScript String.prototype.padStart: pad at the front with the pad
character until the length reaches the target length. -/
def padStart (s : String) (targetLength : Nat) (pad : Char) : String :=
  String.mk (List.replicate (targetLength - s.length) pad) ++ s

/-- formatTime from media-utils.ts lines 27-31, on non-negative integers. -/
def formatTime (seconds : Nat) : String :=
  let mins := seconds / 60
  let secs := seconds % 60
  padStart (toString mins) 2 '0' ++ ":" ++ padStart (toString secs) 2 '0'

/-- The claim's reading of the seconds field: exactly two decimal digits. -/
def twoDigitClock (n : Nat) : String :=
  String.mk [Nat.digitChar (n / 10), Nat.digitChar (n % 10)]

/-! ### error-handler.ts : handleMediaError -/

/-- The values handleMediaError can receive: a DOMException carrying a
name and a message, a plain string, an object with a message field, or
anything else (null, undefined, an object without a message). -/
inductive MediaErrorValue where
  | domException (name : String) (message : String)
  | strVal (s : String)
  | objWithMessage (message : String)
  | otherVal
deriving DecidableEq

/-- handleMediaError from error-handler.ts lines 8-46. The JavaScript
truthiness test on error.message means an empty message string falls
through to the unknown-error branch. -/
def handleMediaError (error : MediaErrorValue) (context : String) : String :=
  match error with
  | .domException name _ =>
      if name = "NotFoundError" then
        "Camera or microphone not found. Please connect a device and try again."
      else if name = "NotAllowedError" ∨ name = "PermissionDeniedError" then
        "Permission denied. Please allow access to your camera and microphone."
      else if name = "OverconstrainedError" then
        "Your device does not meet the required constraints. Try a different device."
      else if name = "NotReadableError" ∨ name = "AbortError" then
        "Could not access your camera or microphone. Please check if another application is using them."
      else if name = "SecurityError" then
        "Security error. Media access is not allowed in this context."
      else
        "Media error: " ++ name ++ ". Please try again."
  | .strVal s => s
  | .objWithMessage message =>
      if message = "" then "Unknown error during " ++ context ++ ". Please try again."
      else message
  | .otherVal => "Unknown error during " ++ context ++ ". Please try again."

/-! ### media-utils.ts : captureAudioForRecording -/

/-- A media stream: the enabled flags of its audio tracks and the number
of its video tracks. -/
structure MediaStream where
  audioTracks : List Bool
  videoTracks : Nat
deriving DecidableEq

/-- new MediaStream(): no tracks at all. -/
def emptyMediaStream : MediaStream := ⟨[], 0⟩

/-- The forEach loop that sets track.enabled = true on every audio track
of the high-quality stream. -/
def enableAllAudioTracks (s : MediaStream) : MediaStream :=
  ⟨s.audioTracks.map (fun _ => true), s.videoTracks⟩

/-- A successful getUserMedia call that requested only audio yields a
stream with at least one audio track and no video tracks (platform
guarantee of the capture API). -/
def audioOnlyGrant (s : MediaStream) : Prop :=
  s.audioTracks ≠ [] ∧ s.videoTracks = 0

/-- captureAudioForRecording from media-utils.ts lines 37-85. The two
arguments are the outcomes of the high-quality and the basic
getUserMedia attempts (none models a rejection). On total failure the
function returns new MediaStream(). -/
def captureAudioForRecording (highQualityAudio basicAudio : Option MediaStream) : MediaStream :=
  match highQualityAudio with
  | some s => enableAllAudioTracks s
  | none =>
      match basicAudio with
      | some s => s
      | none => emptyMediaStream

/-! ### useRecording.ts : the recording state machine -/

/-- The values the tracked recording state of useRecording.ts takes,
matching the RecordingState union of the types module (part_007 line 5). -/
inductive RecordingState where
  | idle
  | recording
  | paused
  | processing
deriving DecidableEq

/-- The setRecordingState call sites of useRecording.ts, as events:
startBegin (line 67), startSuccess (119), startFailure (146),
stopBegin (159), stopNoRecorder (163), stopSuccess (188),
stopFailure (205), the exposed pause/resume button (272) and a direct
resumeRecording call (234). -/
inductive RecordingEvent where
  | startBegin
  | startSuccess
  | startFailure
  | stopBegin
  | stopNoRecorder
  | stopSuccess
  | stopFailure
  | pauseButton
  | resumeCall
deriving DecidableEq

/-- One transition of the useRecording.ts state machine. The hook exposes
pauseRecording when the state is recording and resumeRecording
otherwise, so the pause button pauses from recording and resumes (sets
recording) from any other state. -/
def recordingStep (s : RecordingState) (e : RecordingEvent) : RecordingState :=
  match e with
  | .startBegin => .processing
  | .startSuccess => .recording
  | .startFailure => .idle
  | .stopBegin => .processing
  | .stopNoRecorder => .idle
  | .stopSuccess => .idle
  | .stopFailure => .idle
  | .pauseButton => if s = .recording then .paused else .recording
  | .resumeCall => .recording

/-- Run the useRecording.ts machine from the initial state idle. -/
def runRecording (events : List RecordingEvent) : RecordingState :=
  events.foldl recordingStep RecordingState.idle

/-- The legacy VideoRecorder components (part_000, VideoRecorder.tsx)
track useState with the three-value union idle, recording, paused. -/
inductive LegacyRecordingState where
  | idle
  | recording
  | paused
deriving DecidableEq

/-- The setRecordingState call sites of the legacy VideoRecorder:
start succeeds (recording) or fails (idle); pause and stop are guarded
on the state being recording. -/
inductive LegacyRecordingEvent where
  | startSuccess
  | startFailure
  | pauseCall
  | stopCall
deriving DecidableEq

/-- One transition of the legacy VideoRecorder state machine. -/
def legacyRecordingStep (s : LegacyRecordingState) (e : LegacyRecordingEvent) :
    LegacyRecordingState :=
  match e with
  | .startSuccess => .recording
  | .startFailure => .idle
  | .pauseCall => if s = .recording then .paused else s
  | .stopCall => if s = .recording then .idle else s

/-- Run the legacy machine from the initial state idle. -/
def runLegacyRecording (events : List LegacyRecordingEvent) : LegacyRecordingState :=
  events.foldl legacyRecordingStep LegacyRecordingState.idle

/-! ### Download file names (VideoPlayer.tsx, part_004, download utility) -/

/-- The colon-to-hyphen substitution of .replace applied globally. -/
def colonToDash (c : Char) : Char :=
  if c = ':' then '-' else c

/-- new Date().toISOString().slice(0, 19).replace all colons with
hyphens, from VideoPlayer.tsx line 69 and part_004 line 70, as a
function of the ISO timestamp string. -/
def sliceReplaceTimestamp (iso : String) : String :=
  String.mk ((iso.data.take 19).map colonToDash)

/-- The download file name built by handleDownload in
video-recorder/VideoPlayer.tsx line 69. -/
def videoPlayerDownloadName (iso : String) : String :=
  "recording-" ++ sliceReplaceTimestamp iso ++ ".webm"

/-- The download file name built by downloadVideo in part_004 line 70
(same expression as videoPlayerDownloadName). -/
def part004DownloadName (iso : String) : String :=
  "recording-" ++ sliceReplaceTimestamp iso ++ ".webm"

/-- The download file name built by handleDownload in
video-recorder/components/VideoPlayer.tsx line 172. -/
def componentsPlayerDownloadName (iso : String) : String :=
  "recording-" ++ iso ++ ".webm"

/-- The download file name built by the downloadVideo utility
(download_utils, bundled after global.d.ts): underscore and the full
ISO timestamp. -/
def downloadUtilsFileName (iso : String) : String :=
  "recording_" ++ iso ++ ".webm"

/-- The file name pattern as the spec states it:
recording_ followed by the ISO-8601 timestamp and .webm. -/
def specDownloadName (iso : String) : String :=
  "recording_" ++ iso ++ ".webm"

/-! ### View mode (part_007 types, part_004 changeViewMode) -/

/-- The ViewMode union of part_007 line 6. -/
inductive ViewMode where
  | full
  | split
  | circle
  | tutorial
deriving DecidableEq

/-- The component state touched by changeViewMode: the viewMode React
state and the window global whose last written value coordinates the
recorder (none models a never-written global). -/
structure ViewModeState where
  viewMode : ViewMode
  lastViewModeGlobal : Option ViewMode
deriving DecidableEq

/-- useState of part_004 line 17 starts at full; the global starts
unset. -/
def initialViewModeState : ViewModeState :=
  ⟨ViewMode.full, none⟩

/-- changeViewMode from part_004 lines 100-145: an early return when the
mode is unchanged, otherwise both the state and the global are set to
the new mode. -/
def changeViewMode (st : ViewModeState) (newMode : ViewMode) : ViewModeState :=
  if newMode = st.viewMode then st
  else ⟨newMode, some newMode⟩

/-- A sequence of UI view-mode button clicks applied from the initial
state. -/
def runViewChanges (clicks : List ViewMode) : ViewModeState :=
  clicks.foldl changeViewMode initialViewModeState

/-! ### Teleprompter.tsx : the scroll animation -/

/-- The teleprompter scroll state: the position React state and the
isScrolling flag. Positions are exact rationals. -/
structure TeleprompterState where
  position : Rat
  isScrolling : Bool
deriving DecidableEq

/-- Initial state: position 0, not scrolling. -/
def initialTeleprompter : TeleprompterState :=
  ⟨0, false⟩

/-- One animate frame from Teleprompter.tsx lines 19-38, with the
measurement scrollHeight minus clientHeight passed as maxScroll
(none when a ref is not available, in which case no clamping occurs). -/
def animateStep (speed : Rat) (maxScroll : Option Rat) (st : TeleprompterState) :
    TeleprompterState :=
  if st.isScrolling = false then st
  else
    let newPosition := st.position + speed * (1 / 10)
    match maxScroll with
    | some m => if m ≤ newPosition then ⟨m, false⟩ else ⟨newPosition, true⟩
    | none => ⟨newPosition, true⟩

/-- The teleprompter operations reachable from the UI: an animation
frame at the current speed, the start/stop toggle, and reset. -/
inductive TeleprompterOp where
  | animate (speed : Rat)
  | toggle
  | reset

/-- Interpret one operation, with the fixed measurement m available at
every animation frame. -/
def teleStep (m : Rat) (st : TeleprompterState) (op : TeleprompterOp) : TeleprompterState :=
  match op with
  | .animate speed => animateStep speed (some m) st
  | .toggle => ⟨st.position, !st.isScrolling⟩
  | .reset => ⟨0, false⟩

/-- Run a sequence of teleprompter operations from the initial state. -/
def runTeleprompter (m : Rat) (ops : List TeleprompterOp) : TeleprompterState :=
  ops.foldl (teleStep m) initialTeleprompter

/-! ### media_player.tsx : the script-generation form -/

/-- The form data of the script form: exactly the three fields
topicTitle, seoKeyword, creatorInfo (media_player.tsx lines 67-78). -/
structure ScriptFormData where
  topicTitle : String
  seoKeyword : String
  creatorInfo : String
deriving DecidableEq

/-- The generated-content React state touched by handleSubmit: the
displayed and editable copies of script, description and tags, and the
error message. -/
structure ScriptContentState where
  generatedScript : String
  editableScript : String
  youtubeDescription : String
  editableDescription : String
  youtubeTags : String
  editableTags : String
  errorMessage : String
deriving DecidableEq

/-- The parsed JSON response of POST /generate-content. An empty
errorField models a missing or falsy error field of the JSON body. -/
structure GenerateResponse where
  ok : Bool
  status : Nat
  errorField : String
  script : String
  description : String
  tags : String
deriving DecidableEq

/-- The key/value pairs of JSON.stringify(formData): exactly the three
form fields, in declaration order. -/
def requestBodyFields (fd : ScriptFormData) : List (String × String) :=
  [("topicTitle", fd.topicTitle), ("seoKeyword", fd.seoKeyword),
   ("creatorInfo", fd.creatorInfo)]

/-- JavaScript String.prototype.trim: drop whitespace from both ends. -/
def jsTrim (s : String) : String :=
  String.mk (((s.data.dropWhile Char.isWhitespace).reverse.dropWhile Char.isWhitespace).reverse)

/-- The validation guard of handleSubmit line 257: a falsy trimmed
topicTitle or seoKeyword blocks submission. -/
def validationFails (fd : ScriptFormData) : Bool :=
  jsTrim fd.topicTitle = "" || jsTrim fd.seoKeyword = ""

/-- handleSubmit from media_player.tsx lines 253-300, as a function of
the form data, the current content state and the (parsed) server
response; the Bool of the result records whether the network request
was issued. -/
def handleSubmit (fd : ScriptFormData) (st : ScriptContentState) (resp : GenerateResponse) :
    ScriptContentState × Bool :=
  if validationFails fd then
    ({ st with errorMessage := "Please fill in both the topic title and SEO keyword" }, false)
  else if resp.ok then
    ({ st with
        generatedScript := resp.script
        editableScript := resp.script
        youtubeDescription := resp.description
        editableDescription := resp.description
        youtubeTags := resp.tags
        editableTags := resp.tags
        errorMessage := "" }, true)
  else
    ({ st with
        errorMessage :=
          if resp.errorField = "" then "Server error: " ++ toString resp.status
          else resp.errorField }, true)

end EasyYoutube

namespace EasyYoutube

theorem probeLoop_eq_find (supported : String → Bool) (l : List String) :
    probeLoop supported l = l.find? supported := by
  induction l with
  | nil => rfl
  | cons t rest ih =>
    by_cases h : supported t = true
    · simp [probeLoop, List.find?, h]
    · simp only [Bool.not_eq_true] at h
      simp [probeLoop, List.find?, h, ih]

/-- C3: getSupportedMimeType returns the first element of the ordered probe
list that the browser-support predicate accepts, and the fallback
"video/webm" when the predicate accepts none of them. -/
theorem getSupportedMimeType_first_match :
    (∀ supported : String → Bool,
        getSupportedMimeType supported = (mimeTypes.find? supported).getD "video/webm")
    ∧ getSupportedMimeType (fun _ => false) = "video/webm" := by
  constructor
  · intro supported
    unfold getSupportedMimeType
    rw [probeLoop_eq_find]
    cases mimeTypes.find? supported <;> rfl
  · decide

theorem padStart_two_digits (n : Nat) (h : n < 60) :
    padStart (toString n) 2 '0' = twoDigitClock n := by
  interval_cases n <;> rfl

theorem padStart_length_ge (s : String) (n : Nat) (c : Char) :
    n ≤ (padStart s n c).length := by
  simp [padStart, String.length_append, String.length_mk, List.length_replicate]
  omega

/-- C10: formatTime renders floor(s / 60) left-padded with zeros to at
least two characters, a colon, then s mod 60 as exactly two decimal
digits; in particular formatTime 65 = "01:05" and formatTime 0 = "00:00". -/
theorem formatTime_spec (seconds : Nat) :
    formatTime seconds
        = padStart (toString (seconds / 60)) 2 '0' ++ ":" ++ twoDigitClock (seconds % 60)
      ∧ 2 ≤ (padStart (toString (seconds / 60)) 2 '0').length
      ∧ (twoDigitClock (seconds % 60)).length = 2
      ∧ formatTime 65 = "01:05"
      ∧ formatTime 0 = "00:00" := by
  refine ⟨?_, padStart_length_ge _ _ _, rfl, by decide, by decide⟩
  unfold formatTime
  dsimp only
  rw [padStart_two_digits (seconds % 60) (Nat.mod_lt _ (by norm_num))]

theorem sandwich_ne_empty (a b c : String) (h : 0 < a.length) : a ++ b ++ c ≠ "" := by
  intro he
  have hl := congrArg String.length he
  rw [String.length_append, String.length_append] at hl
  simp only [String.length_empty] at hl
  omega

/-- C6 counterexample: handleMediaError applied to a plain empty string
returns the empty string, so the output is not non-empty for every
input. -/
theorem handleMediaError_empty_counterexample :
    (handleMediaError (MediaErrorValue.strVal "") "media").length = 0 := rfl

/-- C6 amended: handleMediaError never throws and returns the empty
string exactly when its input is the plain empty string (which it
returns unchanged); every other input yields a non-empty string, and a
DOMException named NotAllowedError or PermissionDeniedError yields
exactly the permission-denied message. -/
theorem handleMediaError_amended :
    (∀ e ctx, handleMediaError e ctx = "" ↔ e = MediaErrorValue.strVal "")
    ∧ (∀ msg ctx, handleMediaError (MediaErrorValue.domException "NotAllowedError" msg) ctx
        = "Permission denied. Please allow access to your camera and microphone.")
    ∧ (∀ msg ctx, handleMediaError (MediaErrorValue.domException "PermissionDeniedError" msg) ctx
        = "Permission denied. Please allow access to your camera and microphone.") := by
  refine ⟨?_, fun msg ctx => rfl, fun msg ctx => rfl⟩
  intro e ctx
  cases e with
  | domException name message =>
      simp only [handleMediaError]
      constructor
      · intro h
        exfalso
        revert h
        split_ifs <;> intro h
        · exact absurd h (by decide)
        · exact absurd h (by decide)
        · exact absurd h (by decide)
        · exact absurd h (by decide)
        · exact absurd h (by decide)
        · exact sandwich_ne_empty "Media error: " name ". Please try again." (by decide) h
      · intro h
        exact absurd h (by simp)
  | strVal s =>
      simp [handleMediaError]
  | objWithMessage message =>
      simp only [handleMediaError]
      constructor
      · intro h
        exfalso
        revert h
        split_ifs with hmsg <;> intro h
        · exact sandwich_ne_empty "Unknown error during " ctx ". Please try again." (by decide) h
        · exact hmsg h
      · intro h
        exact absurd h (by simp)
  | otherVal =>
      simp only [handleMediaError]
      constructor
      · intro h
        exact absurd h
          (sandwich_ne_empty "Unknown error during " ctx ". Please try again." (by decide))
      · intro h
        exact absurd h (by simp)

/-- C6 witness: the amended theorem evaluated at concrete inputs. -/
theorem handleMediaError_amended_witness :
    (handleMediaError (MediaErrorValue.strVal "") "media" = ""
      ↔ MediaErrorValue.strVal "" = MediaErrorValue.strVal "")
    ∧ handleMediaError (MediaErrorValue.domException "NotAllowedError" "denied") "media"
        = "Permission denied. Please allow access to your camera and microphone." :=
  ⟨handleMediaError_amended.1 (MediaErrorValue.strVal "") "media",
   handleMediaError_amended.2.1 "denied" "media"⟩

/-- C2 counterexample: when both getUserMedia attempts fail,
captureAudioForRecording returns new MediaStream(), which has no audio
track, contradicting an audio track being guaranteed for every
outcome. -/
theorem captureAudio_total_failure_counterexample :
    ¬ 1 ≤ (captureAudioForRecording none none).audioTracks.length := by
  decide

/-- C2 amended: captureAudioForRecording never throws and never returns
a video track; when at least one of the two getUserMedia attempts
succeeds the result has at least one audio track, but on total failure
it returns the empty stream with no tracks at all. -/
theorem captureAudioForRecording_amended (highQualityAudio basicAudio : Option MediaStream)
    (hq : ∀ s, highQualityAudio = some s → audioOnlyGrant s)
    (hb : ∀ s, basicAudio = some s → audioOnlyGrant s) :
    (captureAudioForRecording highQualityAudio basicAudio).videoTracks = 0
    ∧ (highQualityAudio ≠ none ∨ basicAudio ≠ none →
        (captureAudioForRecording highQualityAudio basicAudio).audioTracks ≠ [])
    ∧ (highQualityAudio = none → basicAudio = none →
        captureAudioForRecording highQualityAudio basicAudio = emptyMediaStream) := by
  cases highQualityAudio with
  | some s =>
      obtain ⟨h1, h2⟩ := hq s rfl
      refine ⟨?_, fun _ => ?_, fun h => absurd h (by simp)⟩
      · simp [captureAudioForRecording, enableAllAudioTracks, h2]
      · simp [captureAudioForRecording, enableAllAudioTracks, h1]
  | none =>
      cases basicAudio with
      | some s =>
          obtain ⟨h1, h2⟩ := hb s rfl
          refine ⟨?_, fun _ => ?_, fun _ h => absurd h (by simp)⟩
          · simp [captureAudioForRecording, h2]
          · simp [captureAudioForRecording, h1]
      | none =>
          refine ⟨rfl, fun h => ?_, fun _ _ => rfl⟩
          rcases h with h | h <;> exact absurd rfl h

/-- C2 witness: the amended theorem evaluated at a successful
high-quality attempt carrying one audio track. -/
theorem captureAudioForRecording_amended_witness :
    (captureAudioForRecording (some ⟨[true], 0⟩) none).videoTracks = 0
    ∧ (some (⟨[true], 0⟩ : MediaStream) ≠ none ∨ (none : Option MediaStream) ≠ none →
        (captureAudioForRecording (some ⟨[true], 0⟩) none).audioTracks ≠ [])
    ∧ (some (⟨[true], 0⟩ : MediaStream) = none → (none : Option MediaStream) = none →
        captureAudioForRecording (some ⟨[true], 0⟩) none = emptyMediaStream) :=
  captureAudioForRecording_amended (some ⟨[true], 0⟩) none
    (fun s hs => by
      injection hs with h
      subst h
      exact ⟨by decide, rfl⟩)
    (fun s hs => by simp at hs)

theorem recordingState_cases (s : RecordingState) :
    s = RecordingState.idle ∨ s = RecordingState.recording
    ∨ s = RecordingState.paused ∨ s = RecordingState.processing := by
  cases s <;> simp

theorem legacyRecordingState_cases (s : LegacyRecordingState) :
    s = LegacyRecordingState.idle ∨ s = LegacyRecordingState.recording
    ∨ s = LegacyRecordingState.paused := by
  cases s <;> simp

/-- C1 counterexample: the trace consisting of a single startRecording
call drives the useRecording.ts machine to the state processing, which
is none of idle, recording, paused. -/
theorem recordingState_processing_counterexample :
    runRecording [RecordingEvent.startBegin] = RecordingState.processing
    ∧ RecordingState.processing ≠ RecordingState.idle
    ∧ RecordingState.processing ≠ RecordingState.recording
    ∧ RecordingState.processing ≠ RecordingState.paused := by
  decide

/-- C1 amended: every reachable state of the useRecording.ts machine is
one of idle, recording, paused, processing, and each of the four is
reachable; the legacy VideoRecorder machines range over only idle,
recording, paused. -/
theorem recordingState_range_amended :
    (∀ events : List RecordingEvent,
        runRecording events = RecordingState.idle
        ∨ runRecording events = RecordingState.recording
        ∨ runRecording events = RecordingState.paused
        ∨ runRecording events = RecordingState.processing)
    ∧ runRecording [] = RecordingState.idle
    ∧ runRecording [RecordingEvent.startBegin] = RecordingState.processing
    ∧ runRecording [RecordingEvent.startBegin, RecordingEvent.startSuccess]
        = RecordingState.recording
    ∧ runRecording
        [RecordingEvent.startBegin, RecordingEvent.startSuccess, RecordingEvent.pauseButton]
        = RecordingState.paused
    ∧ (∀ events : List LegacyRecordingEvent,
        runLegacyRecording events = LegacyRecordingState.idle
        ∨ runLegacyRecording events = LegacyRecordingState.recording
        ∨ runLegacyRecording events = LegacyRecordingState.paused) :=
  ⟨fun events => recordingState_cases (runRecording events),
   by decide, by decide, by decide, by decide,
   fun events => legacyRecordingState_cases (runLegacyRecording events)⟩

/-- C5 counterexample: at a concrete ISO-8601 timestamp, the download
name built by handleDownload in video-recorder/VideoPlayer.tsx starts
with "recording-" (hyphen) and truncates the timestamp, so it differs
from the specified recording_ prefixed name and does not start with
"recording_". -/
theorem downloadName_counterexample :
    videoPlayerDownloadName "2025-04-01T12:34:56.789Z" = "recording-2025-04-01T12-34-56.webm"
    ∧ videoPlayerDownloadName "2025-04-01T12:34:56.789Z"
        ≠ specDownloadName "2025-04-01T12:34:56.789Z"
    ∧ (videoPlayerDownloadName "2025-04-01T12:34:56.789Z").data.take 10
        ≠ ("recording_" : String).data := by
  decide

theorem sliceReplace_no_colon (iso : String) :
    ((sliceReplaceTimestamp iso).data.count ':') = 0 := by
  rw [List.count_eq_zero]
  intro hmem
  obtain ⟨c, -, hc⟩ := List.mem_map.mp hmem
  by_cases h : c = ':'
  · rw [colonToDash, if_pos h] at hc
    exact absurd hc (by decide)
  · rw [colonToDash, if_neg h] at hc
    exact h hc

/-- C5 amended: the download handlers of video-recorder/VideoPlayer.tsx
and part_004 name the file "recording-" followed by the first 19
characters of the ISO-8601 timestamp with every colon replaced by a
hyphen (so the timestamp part has at most 19 characters and no colon),
then ".webm"; components/VideoPlayer.tsx uses "recording-" with the
full ISO timestamp; only the downloadVideo utility produces the
specified recording_ prefixed ISO name. -/
theorem downloadName_amended (iso : String) :
    videoPlayerDownloadName iso = "recording-" ++ sliceReplaceTimestamp iso ++ ".webm"
    ∧ part004DownloadName iso = videoPlayerDownloadName iso
    ∧ componentsPlayerDownloadName iso = "recording-" ++ iso ++ ".webm"
    ∧ downloadUtilsFileName iso = specDownloadName iso
    ∧ (sliceReplaceTimestamp iso).length ≤ 19
    ∧ ((sliceReplaceTimestamp iso).data.count ':') = 0 := by
  refine ⟨rfl, rfl, rfl, rfl, ?_, sliceReplace_no_colon iso⟩
  simp only [sliceReplaceTimestamp, String.length_mk, List.length_map, List.length_take]
  omega

theorem viewMode_mem (v : ViewMode) :
    v ∈ [ViewMode.full, ViewMode.split, ViewMode.circle, ViewMode.tutorial] := by
  cases v <;> decide

theorem optionViewMode_mem (o : Option ViewMode) :
    o ∈ [none, some ViewMode.full, some ViewMode.split, some ViewMode.circle,
         some ViewMode.tutorial] := by
  cases o with
  | none => decide
  | some v => cases v <;> decide

/-- C7: ViewMode admits exactly the four values full, split, circle,
tutorial (all distinct), the initial view mode is full, and after any
sequence of UI view-mode clicks both the view-mode state and the
_lastViewMode global hold one of these four values (the global possibly
still unset). -/
theorem viewMode_range :
    (∀ v : ViewMode, v ∈ [ViewMode.full, ViewMode.split, ViewMode.circle, ViewMode.tutorial])
    ∧ List.Nodup [ViewMode.full, ViewMode.split, ViewMode.circle, ViewMode.tutorial]
    ∧ initialViewModeState.viewMode = ViewMode.full
    ∧ (∀ clicks : List ViewMode,
        (runViewChanges clicks).viewMode
            ∈ [ViewMode.full, ViewMode.split, ViewMode.circle, ViewMode.tutorial]
        ∧ (runViewChanges clicks).lastViewModeGlobal
            ∈ [none, some ViewMode.full, some ViewMode.split, some ViewMode.circle,
               some ViewMode.tutorial]) :=
  ⟨viewMode_mem, by decide, rfl,
   fun clicks =>
     ⟨viewMode_mem (runViewChanges clicks).viewMode,
      optionViewMode_mem (runViewChanges clicks).lastViewModeGlobal⟩⟩

theorem teleStep_position_le (m : Rat) (hm : 0 ≤ m) (st : TeleprompterState)
    (op : TeleprompterOp) (h : st.position ≤ m) : (teleStep m st op).position ≤ m := by
  cases op with
  | animate speed =>
      simp only [teleStep, animateStep]
      by_cases hs : st.isScrolling = false
      · rw [if_pos hs]
        exact h
      · rw [if_neg hs]
        by_cases hle : m ≤ st.position + speed * (1 / 10)
        · rw [if_pos hle]
        · rw [if_neg hle]
          exact le_of_lt (not_le.mp hle)
  | toggle => simpa [teleStep] using h
  | reset => simpa [teleStep] using hm

theorem runTeleprompter_aux (m : Rat) (hm : 0 ≤ m) (ops : List TeleprompterOp)
    (st : TeleprompterState) (h : st.position ≤ m) :
    (ops.foldl (teleStep m) st).position ≤ m := by
  induction ops generalizing st with
  | nil => exact h
  | cons op rest ih => exact ih _ (teleStep_position_le m hm st op h)

/-- C8 counterexample: the maximum scroll is measured across two
different elements (content scrollHeight minus container clientHeight)
and is negative when the content is shorter than the fixed h-64
container; there the position 0 of the initial state, and of the state
reached by reset, already exceeds the maximum, so the claimed bound is
false as stated. -/
theorem teleprompter_negative_max_counterexample :
    (runTeleprompter (-100) []).position = 0
    ∧ ¬ (runTeleprompter (-100) []).position ≤ (-100 : Rat)
    ∧ (runTeleprompter (-100)
        [TeleprompterOp.toggle, TeleprompterOp.animate 1, TeleprompterOp.reset]).position = 0
    ∧ ¬ (runTeleprompter (-100)
        [TeleprompterOp.toggle, TeleprompterOp.animate 1, TeleprompterOp.reset]).position
          ≤ (-100 : Rat) := by
  decide

/-- C8 amended: an active animation frame that stays below the maximum
scroll m adds exactly speed * 0.1 to the position, a frame that would
reach or exceed m sets the position to exactly m and stops scrolling,
and reset sets the position to 0 and stops scrolling; provided m is
non-negative (content at least as tall as the container), the position
stays at most m over every operation sequence from the initial state —
when m is negative the position 0 at start and after reset exceeds
it. -/
theorem teleprompter_bounded (m : Rat) (hm : 0 ≤ m) (ops : List TeleprompterOp) :
    (runTeleprompter m ops).position ≤ m
    ∧ (∀ (speed : Rat) (st : TeleprompterState), st.isScrolling = true →
        st.position + speed * (1 / 10) < m →
        animateStep speed (some m) st = ⟨st.position + speed * (1 / 10), true⟩)
    ∧ (∀ (speed : Rat) (st : TeleprompterState), st.isScrolling = true →
        m ≤ st.position + speed * (1 / 10) →
        animateStep speed (some m) st = ⟨m, false⟩)
    ∧ (∀ st, teleStep m st TeleprompterOp.reset = ⟨0, false⟩)
    ∧ initialTeleprompter.position = 0 := by
  refine ⟨runTeleprompter_aux m hm ops initialTeleprompter hm, ?_, ?_, fun st => rfl, rfl⟩
  · intro speed st hs hlt
    simp only [animateStep, hs]
    rw [if_neg (by decide)]
    rw [if_neg (not_le.mpr hlt)]
  · intro speed st hs hle
    simp only [animateStep, hs]
    rw [if_neg (by decide)]
    rw [if_pos hle]

/-- C8 witness: the bound evaluated at m = 5 on a concrete operation
sequence. -/
theorem teleprompter_bounded_witness :
    (runTeleprompter 5 [TeleprompterOp.toggle, TeleprompterOp.animate 2]).position ≤ 5 :=
  (teleprompter_bounded 5 (by norm_num) [TeleprompterOp.toggle, TeleprompterOp.animate 2]).1

/-- C9: when the trimmed topicTitle or the trimmed seoKeyword is empty,
handleSubmit issues no network request and only sets the error message
"Please fill in both the topic title and SEO keyword", leaving every
generated-content field unchanged; a blank creatorInfo never blocks
submission. -/
theorem handleSubmit_validation (fd : ScriptFormData) (st : ScriptContentState)
    (resp : GenerateResponse) (h : jsTrim fd.topicTitle = "" ∨ jsTrim fd.seoKeyword = "") :
    handleSubmit fd st resp
      = ({ st with errorMessage := "Please fill in both the topic title and SEO keyword" },
         false)
    ∧ (∀ t k : String, jsTrim t ≠ "" → jsTrim k ≠ "" →
        (handleSubmit ⟨t, k, ""⟩ st resp).2 = true) := by
  constructor
  · have hv : validationFails fd = true := by
      unfold validationFails
      rcases h with h | h <;> simp [h]
    simp [handleSubmit, hv]
  · intro t k ht hk
    have hv : validationFails ⟨t, k, ""⟩ = false := by
      unfold validationFails
      simp [ht, hk]
    by_cases hok : resp.ok <;> simp [handleSubmit, hv, hok]

/-- C9 witness: an empty topic title blocks submission at concrete
inputs. -/
theorem handleSubmit_validation_witness :
    handleSubmit ⟨"", "kw", "info"⟩ ⟨"a", "b", "c", "d", "e", "f", "g"⟩
        ⟨true, 200, "", "s", "d", "t"⟩
      = (⟨"a", "b", "c", "d", "e", "f",
          "Please fill in both the topic title and SEO keyword"⟩, false) :=
  (handleSubmit_validation ⟨"", "kw", "info"⟩ ⟨"a", "b", "c", "d", "e", "f", "g"⟩
    ⟨true, 200, "", "s", "d", "t"⟩ (Or.inl rfl)).1

/-- C4: a submission that passes validation sends a body with exactly
the fields topicTitle, seoKeyword, creatorInfo; on an ok response both
the displayed and the editable script, description and tags are set
from the response and the error is cleared; on a non-ok response the
error field (or "Server error: status" when that field is falsy) is
surfaced as the error message and all six stored content fields are
unchanged. -/
theorem handleSubmit_network (fd : ScriptFormData) (st : ScriptContentState)
    (resp : GenerateResponse) (ht : jsTrim fd.topicTitle ≠ "") (hk : jsTrim fd.seoKeyword ≠ "") :
    (requestBodyFields fd).map Prod.fst = ["topicTitle", "seoKeyword", "creatorInfo"]
    ∧ (handleSubmit fd st resp).2 = true
    ∧ (resp.ok = true → (handleSubmit fd st resp).1
        = { st with
            generatedScript := resp.script
            editableScript := resp.script
            youtubeDescription := resp.description
            editableDescription := resp.description
            youtubeTags := resp.tags
            editableTags := resp.tags
            errorMessage := "" })
    ∧ (resp.ok = false → (handleSubmit fd st resp).1
        = { st with errorMessage :=
              if resp.errorField = "" then "Server error: " ++ toString resp.status
              else resp.errorField })
    ∧ (resp.ok = false →
        (handleSubmit fd st resp).1.generatedScript = st.generatedScript
        ∧ (handleSubmit fd st resp).1.editableScript = st.editableScript
        ∧ (handleSubmit fd st resp).1.youtubeDescription = st.youtubeDescription
        ∧ (handleSubmit fd st resp).1.editableDescription = st.editableDescription
        ∧ (handleSubmit fd st resp).1.youtubeTags = st.youtubeTags
        ∧ (handleSubmit fd st resp).1.editableTags = st.editableTags) := by
  have hv : validationFails fd = false := by
    unfold validationFails
    simp [ht, hk]
  refine ⟨rfl, ?_, ?_, ?_, ?_⟩
  · by_cases hok : resp.ok <;> simp [handleSubmit, hv, hok]
  · intro hok
    simp [handleSubmit, hv, hok]
  · intro hok
    simp [handleSubmit, hv, hok]
  · intro hok
    simp [handleSubmit, hv, hok]

/-- C4 witness: a failing response surfaces the server error and leaves
the content unchanged, at concrete inputs. -/
theorem handleSubmit_network_witness :
    (handleSubmit ⟨"title", "kw", ""⟩ ⟨"a", "b", "c", "d", "e", "f", "g"⟩
      ⟨false, 500, "", "s", "d", "t"⟩).2 = true :=
  (handleSubmit_network ⟨"title", "kw", ""⟩ ⟨"a", "b", "c", "d", "e", "f", "g"⟩
    ⟨false, 500, "", "s", "d", "t"⟩ (by decide) (by decide)).2.1

end EasyYoutube
